import Mathlib

/-!
Shallow embedding of the DIC_Exchange repository (files
`DIC_Exchange/parsers.py`, `DIC_Exchange/mesh_utils.py`,
`DIC_Exchange/convert_to.py`, `DIC_Exchange/HDF5Exchange.py`) together with
theorems settling the specification claims about it.

Modelling conventions.

* Python byte strings are `List Nat` (one entry per byte, little-endian
  multi-byte fields).  `struct.unpack` on a slice that is shorter than the
  requested size raises `struct.error`; every such failure is an
  `Except.error` here.
* IEEE-754 floats that are only moved around (never used arithmetically by
  any claim) are carried as their raw little-endian bit patterns (`Nat`):
  the 4-byte scalar of a strain record, the 8-byte doubles of the bounding
  box, the quantized `uint32` coordinates.  The dequantization
  `min + (max-min) * raw / MAX_UINT` of `read_surface_component_vertices`
  is an injective numeric postprocessing of those patterns that no claim
  inspects, so vertex values are kept as the raw quantized triples.
* Python `float` values that are compared (force and time series in
  `convert_to.load_from`) are modelled as `ℚ`; the comparisons performed by
  the code are exact on representable values.
* Python exceptions (`struct.error`, `RuntimeError`, `TypeError`,
  `IndexError`, `KeyError`, `ValueError`) are constructors of `PyErr`; a
  function that can raise returns `Except PyErr _`.
* Python `dict`s are association lists in insertion order (CPython dicts
  preserve insertion order); lookup of an absent key is `PyErr.keyError`.
-/

deriving instance DecidableEq for Except

namespace DICX

/-- Python exception kinds raised (explicitly or implicitly) by the code. -/
inductive PyErr where
  /-- `struct.error`: a buffer shorter than the format requires. -/
  | structError
  /-- `RuntimeError("Error in decoding stage geometry, invalid Flag")`. -/
  | invalidFlag
  /-- `RuntimeError("Error in decoding stage geometry, invalid binary message length")`. -/
  | lengthMismatch
  /-- `TypeError`: e.g. `str + None`, `len(None)`, indexing a list with `None`. -/
  | typeError
  /-- `IndexError`: list index out of range (incl. numpy fancy indexing). -/
  | indexError
  /-- `KeyError`: dict lookup of an absent key. -/
  | keyError
  /-- `ValueError`: e.g. `np.max` of an empty selection, zero slice step. -/
  | valueError
  deriving DecidableEq, Repr

/-- Read one byte (`struct.unpack("<B", ...)`). -/
def rdU8 : List Nat → Except PyErr (Nat × List Nat)
  | [] => .error .structError
  | b :: rest => .ok (b, rest)

/-- Read a little-endian `uint32` (`struct.unpack("<I", ...)`).  Also used
for the 4-byte `"<f"` float fields, whose bit pattern is kept as a `Nat`. -/
def rdU32 : List Nat → Except PyErr (Nat × List Nat)
  | b0 :: b1 :: b2 :: b3 :: rest =>
      .ok (b0 + 256 * (b1 + 256 * (b2 + 256 * b3)), rest)
  | _ => .error .structError

/-- Read a little-endian 8-byte field (`"<d"` double, kept as raw bits). -/
def rdU64 : List Nat → Except PyErr (Nat × List Nat)
  | b0 :: b1 :: b2 :: b3 :: b4 :: b5 :: b6 :: b7 :: rest =>
      .ok (b0 + 256 * (b1 + 256 * (b2 + 256 * (b3 + 256 *
        (b4 + 256 * (b5 + 256 * (b6 + 256 * b7)))))), rest)
  | _ => .error .structError

/-- Read exactly `n` bytes (`struct.unpack("<Ns", ...)`). -/
def rdBytes (n : Nat) (bs : List Nat) : Except PyErr (List Nat × List Nat) :=
  if n ≤ bs.length then .ok (bs.take n, bs.drop n) else .error .structError

/-- Decode bytes to a string one byte per character (`.decode("latin-1")`). -/
def latin1 (bs : List Nat) : String :=
  String.mk (bs.map Char.ofNat)

/-- Result of `read_surface_component_scalar`.  `unitName` and `warned`
record the logging side channel of the source (the non-fatal
`logging.warning` for a unit other than `log_strain`); `hasVectors` records
whether Python returns the pair `(buff_scalar, buff_vector)` or just
`buff_scalar`; `rest` is the unconsumed byte suffix, which the source
silently ignores (it performs no final length check in this function). -/
structure ScalarOut where
  scalars : List (Nat × Nat)
  vectors : List (Nat × (Nat × Nat × Nat))
  hasVectors : Bool
  unitName : Option String
  warned : Bool
  rest : List Nat
  deriving DecidableEq, Repr

/-- Per-vertex loop of `read_surface_component_scalar` (parsers.py 278-291):
a validity byte per vertex; `1` reads the 4-byte scalar (and, when
`dire_vect_flag == 1`, three more 4-byte floats); `0` skips; anything else
raises `RuntimeError`. -/
def scalarLoop (flag : Nat) : Nat → Nat → List Nat →
    List (Nat × Nat) → List (Nat × (Nat × Nat × Nat)) →
    Except PyErr (List (Nat × Nat) × List (Nat × (Nat × Nat × Nat)) × List Nat)
  | 0, _, bs, accS, accV => .ok (accS, accV, bs)
  | k + 1, i, bs, accS, accV => do
    let (valid, r1) ← rdU8 bs
    if valid = 1 then do
      let (sc, r2) ← rdU32 r1
      if flag = 1 then do
        let (v1, r3) ← rdU32 r2
        let (v2, r4) ← rdU32 r3
        let (v3, r5) ← rdU32 r4
        scalarLoop flag k (i + 1) r5 (accS ++ [(i, sc)]) (accV ++ [(i, (v1, v2, v3))])
      else
        scalarLoop flag k (i + 1) r2 (accS ++ [(i, sc)]) accV
    else if valid = 0 then
      scalarLoop flag k (i + 1) r1 accS accV
    else
      .error .invalidFlag

/-- Embedding of `read_surface_component_scalar` (parsers.py 253-299),
starting from the base64-decoded bytes (the base64 step is Python stdlib).
Header: `uint32 version`; if `version >= 1` a length-prefixed latin-1 unit
name; `uint32 n_vertices`; if `version >= 2` one byte `dire_vect_flag`
(taken as read, without validation, exactly as in the source).  After the
vertex loop the source compares `unit_name != 'log_strain'` and, on a
mismatch, builds the warning message `"strain is not log strain, but " +
unit_name`; when `unit_name` is `None` (version < 1) that string
concatenation raises `TypeError`.  There is no final consumed-length check
in this function: leftover bytes are returned in `rest`. -/
def read_surface_component_scalar (msg : List Nat) : Except PyErr ScalarOut := do
  let (version, r1) ← rdU32 msg
  let (unit_name, r2) ←
    if version ≥ 1 then do
      let (len_string, ra) ← rdU32 r1
      let (us, rb) ← rdBytes len_string ra
      pure (some (latin1 us), rb)
    else
      pure (none, r1)
  let (n_vertices, r3) ← rdU32 r2
  let (flag, r4) ←
    if version ≥ 2 then rdU8 r3 else pure (0, r3)
  let (buffScalar, buffVector, rest) ← scalarLoop flag n_vertices 0 r4 [] []
  let warned ←
    if unit_name ≠ some "log_strain" then
      match unit_name with
      | none => Except.error PyErr.typeError
      | some _ => pure true
    else
      pure false
  .ok ⟨buffScalar, buffVector, flag = 1, unit_name, warned, rest⟩

/-- Result of `read_surface_component_vertices`.  Corner doubles are raw
64-bit patterns, vertex coordinates are the raw quantized `uint32` triples
(see the file header comment on float handling); `rest` is the unconsumed
suffix, always `[]` on success because the source checks it. -/
structure VertsOut where
  version : Nat
  minCorner : Nat × Nat × Nat
  maxCorner : Nat × Nat × Nat
  verts : List (Nat × (Nat × Nat × Nat))
  rest : List Nat
  deriving DecidableEq, Repr

/-- Per-vertex loop of `read_surface_component_vertices` (parsers.py
330-343): a validity byte, then for a valid vertex three quantized
`uint32` components. -/
def vertsLoop : Nat → Nat → List Nat → List (Nat × (Nat × Nat × Nat)) →
    Except PyErr (List (Nat × (Nat × Nat × Nat)) × List Nat)
  | 0, _, bs, acc => .ok (acc, bs)
  | k + 1, i, bs, acc => do
    let (valid, r1) ← rdU8 bs
    if valid = 1 then do
      let (c1, r2) ← rdU32 r1
      let (c2, r3) ← rdU32 r2
      let (c3, r4) ← rdU32 r3
      vertsLoop k (i + 1) r4 (acc ++ [(i, (c1, c2, c3))])
    else if valid = 0 then
      vertsLoop k (i + 1) r1 acc
    else
      .error .invalidFlag

/-- The header and vertex reads of `read_surface_component_vertices`
(parsers.py 322-343), before any structural check: the `"<I6dI"` header
(version, two corner triples of doubles, vertex count), then the
validity-flagged quantized loop.  Returns everything read plus the
unconsumed suffix. -/
def vertsDecodeRaw (msg : List Nat) :
    Except PyErr (Nat × (Nat × Nat × Nat) × (Nat × Nat × Nat) × Nat ×
      List (Nat × (Nat × Nat × Nat)) × List Nat) := do
  let (version, r1) ← rdU32 msg
  let (m1, ra) ← rdU64 r1
  let (m2, rb) ← rdU64 ra
  let (m3, rc) ← rdU64 rb
  let (x1, rd) ← rdU64 rc
  let (x2, re) ← rdU64 rd
  let (x3, rf) ← rdU64 re
  let (n_vertices, r2) ← rdU32 rf
  let (pairs, rest) ← vertsLoop n_vertices 0 r2 []
  .ok (version, (m1, m2, m3), (x1, x2, x3), n_vertices, pairs, rest)

/-- Embedding of `read_surface_component_vertices` (parsers.py 319-358):
the raw reads of `vertsDecodeRaw`, then the source's structural check
`off != len(message_bytes)` raising `RuntimeError` on a mismatch (the
length check of the claim); afterwards, when `n_vertices != 0` but no
vertex was valid, `np.array([])[:, i]` in the dequantization raises
`IndexError` (modelled by the `.indexError` branch). -/
def read_surface_component_vertices (msg : List Nat) : Except PyErr VertsOut := do
  let (version, mins, maxs, n_vertices, pairs, rest) ← vertsDecodeRaw msg
  if rest ≠ [] then
    .error .lengthMismatch
  else if n_vertices ≠ 0 ∧ pairs = [] then
    .error .indexError
  else
    .ok ⟨version, mins, maxs, pairs, rest⟩

/-! ## mesh_utils.py -/

/-- A half edge, `frozenset({a, b})` in the source: an unordered pair of
vertex indices, represented by its sorted element pair.  Two-element
frozensets are equal exactly when the sorted pairs are; a degenerate
"edge" `frozenset({a})` (possible only for degenerate triangles) is the
pair `(a, a)`. -/
abbrev HalfEdge := Nat × Nat

/-- Build the half edge `frozenset({a, b})`. -/
def mkEdge (a b : Nat) : HalfEdge :=
  if a ≤ b then (a, b) else (b, a)

/-- Python `v in frozenset({a, b})`. -/
def edgeHas (e : HalfEdge) (v : Nat) : Prop :=
  v = e.1 ∨ v = e.2

instance (e : HalfEdge) (v : Nat) : Decidable (edgeHas e v) := by
  unfold edgeHas; infer_instance

/-- The three half edges of one triangle, in the order the source builds
them (mesh_utils.py 63-65): `{el[0],el[1]}`, `{el[1],el[2]}`,
`{el[0],el[2]}`. -/
def triEdges (el : Nat × Nat × Nat) : List HalfEdge :=
  [mkEdge el.1 el.2.1, mkEdge el.2.1 el.2.2, mkEdge el.1 el.2.2]

/-- One step of the parity working set (mesh_utils.py 67-71): if the edge
is already present remove it, else append it. -/
def toggleEdge (ws : List HalfEdge) (e : HalfEdge) : List HalfEdge :=
  if e ∈ ws then ws.erase e else ws ++ [e]

/-- Embedding of `mesh_boundaries` (mesh_utils.py 54-72): fold the parity
toggle over every half edge of every triangle, in document order.  The
source keeps the working set as a Python list with `append`/`remove`, so
the result order is deterministic and is preserved here. -/
def mesh_boundaries (mesh : List (Nat × Nat × Nat)) : List HalfEdge :=
  mesh.foldl (fun ws el => (triEdges el).foldl toggleEdge ws) []

/-- Enumeration `list(an_half_edges)` of a half edge: CPython enumerates a
frozenset of two distinct small nonnegative ints (identity hashes in
distinct slots of the initial 8-slot table) in increasing order, i.e. as
the sorted pair; for a singleton frozenset the source then hits
`IndexError` at element `[1]`. -/
def edgePair (e : HalfEdge) : Except PyErr (Nat × Nat) :=
  if e.1 = e.2 then .error .indexError else .ok (e.1, e.2)

/-- One pass of the inner `for an_half_edges in unique_half_edges_set`
loop of `mesh_holes` (mesh_utils.py 94-108).  Arguments: scan list, the
`end_summit`, the running `next_summit`, the loop buffer, the accumulated
`unique_half_edges_set_to_remove`.  Returns the updated
`(next_summit, buffer, to_remove, link_running_became_false)`.  Matched
edges are oriented to continue from `next_summit` and the pass breaks once
an edge containing `end_summit` has been consumed. -/
def holePass (endSummit : Nat) : List HalfEdge → Nat → List (Nat × Nat) →
    List HalfEdge → Except PyErr (Nat × List (Nat × Nat) × List HalfEdge × Bool)
  | [], next, buff, rem => .ok (next, buff, rem, false)
  | e :: rest, next, buff, rem =>
    if edgeHas e next then do
      let (a, b) ← edgePair e
      let (next2, entry) := if a = next then (b, (a, b)) else (a, (b, a))
      if edgeHas e endSummit then
        .ok (next2, buff ++ [entry], rem ++ [e], true)
      else
        holePass endSummit rest next2 (buff ++ [entry]) (rem ++ [e])
    else
      holePass endSummit rest next buff rem

/-- Remove each collected edge from the working set (mesh_utils.py
109-110). -/
def removeEdges (ws : List HalfEdge) (toRemove : List HalfEdge) : List HalfEdge :=
  toRemove.foldl (fun acc e => acc.erase e) ws

/-- The `while link_running` loop of `mesh_holes` (mesh_utils.py 92-110),
with explicit fuel.  A full pass that matches no edge leaves the state
unchanged, so the Python loop would then spin forever; that situation (and
fuel exhaustion, which is unreachable because every other pass removes at
least one edge) is reported as an error rather than modelled as
divergence. -/
def holeWalk (endSummit : Nat) : Nat → List HalfEdge → Nat → List (Nat × Nat) →
    Except PyErr (List (Nat × Nat) × List HalfEdge)
  | 0, _, _, _ => .error .valueError
  | fuel + 1, ws, next, buff => do
    let (next2, buff2, toRemove, closed) ← holePass endSummit ws next buff []
    let ws2 := removeEdges ws toRemove
    if closed then
      .ok (buff2, ws2)
    else if toRemove = [] then
      .error .valueError
    else
      holeWalk endSummit fuel ws2 next2 buff2

/-- Embedding of `mesh_holes` (mesh_utils.py 75-113).  The working set
`set(unique_half_edges)` is kept in the deterministic order produced by
`mesh_boundaries`, with `set.pop()` modelled as taking the first element
(CPython order is hash dependent; none of the observables stated about
this function depend on that order).  Crucially, the source has
`return holes` INSIDE the `while len(unique_half_edges_set) != 0` loop,
so the function returns after assembling the first loop; when the
boundary set is empty the `while` body never runs and the function falls
through, returning Python `None` — hence the `Option` result. -/
def mesh_holes (mesh : List (Nat × Nat × Nat)) :
    Except PyErr (Option (List (List (Nat × Nat)))) :=
  let unique := mesh_boundaries mesh
  match unique with
  | [] => .ok none
  | e0 :: rest => do
    let (s0, s1) ← edgePair e0
    let (loop, _) ← holeWalk s0 (rest.length + 2) rest s1 [(s0, s1)]
    .ok (some [loop])

/-- Embedding of `has_mesh_hole` (mesh_utils.py 116-123):
`len(mesh_holes(mesh)) > 1`, where `len(None)` raises `TypeError`. -/
def has_mesh_hole (mesh : List (Nat × Nat × Nat)) : Except PyErr Bool := do
  let holes ← mesh_holes mesh
  match holes with
  | none => .error .typeError
  | some hs => .ok (hs.length > 1)

/-- Number of boundary loops `mesh_holes` reports (`none` when Python
returns `None`). -/
def numLoops (mesh : List (Nat × Nat × Nat)) : Except PyErr (Option Nat) := do
  let holes ← mesh_holes mesh
  .ok (holes.map List.length)

/-! ## convert_to.py -/

/-- Keys of a Python dict modelled as an association list (insertion
order). -/
def dkeys {α κ : Type} (d : List (κ × α)) : List κ :=
  d.map Prod.fst

/-- Python dict lookup `d[k]`; an absent key raises `KeyError`. -/
def dget {α κ : Type} [DecidableEq κ] (d : List (κ × α)) (k : κ) : Except PyErr α :=
  match d.find? (fun p => p.1 = k) with
  | some p => .ok p.2
  | none => .error .keyError

/-- Python index normalisation for a slice endpoint on a list of length
`n`: negative indices count from the end and both directions clamp to
`[0, n]`. -/
def pyIdx (n : Nat) (i : Int) : Nat :=
  if i < 0 then ((n : Int) + i).toNat else min i.toNat n

/-- Every `k`-th element starting from the head (`k ≥ 1`). -/
def everyNth {α : Type} (k : Nat) : List α → List α
  | [] => []
  | a :: rest => a :: everyNth k (rest.drop (k - 1))
  termination_by l => l.length
  decreasing_by
    simp only [List.length_drop, List.length_cons]
    omega

/-- Python list slice `l[f:t:step]` for a nonnegative (or `None`) step:
`None` means step 1, step `0` raises `ValueError`, a positive step keeps
every `step`-th element of `l[f:t]`.  (Negative steps reverse in Python;
the pipeline never passes one, and they are outside this model.) -/
def pySlice {α : Type} (l : List α) (f t : Int) (step : Option Nat) :
    Except PyErr (List α) :=
  let base := (l.drop (pyIdx l.length f)).take (pyIdx l.length t - pyIdx l.length f)
  match step with
  | none => .ok base
  | some 0 => .error .valueError
  | some (k + 1) => .ok (everyNth (k + 1) base)

/-- The iterated set intersection of `_numpyfi` (convert_to.py 88-90):
starting from the first selected stage's key set, intersect with every
selected stage's key set in order.  A Python set is represented by a
duplicate-free list of its members; only membership is meaningful here
(enumeration order is fixed separately by `cpySetList8`). -/
def interFold {α : Type} (coords_o : List (String × List (Nat × α))) :
    List String → List Nat → Except PyErr (List Nat)
  | [], acc => .ok acc
  | st :: rest, acc => do
    let d ← dget coords_o st
    interFold coords_o rest (acc.filter (fun x => x ∈ dkeys d))

/-- The element set of `_numpyfi` (convert_to.py 87-90):
`set(coords_o[list_stage[0]].keys())` intersected with every selected
stage's keys; an empty stage list raises `IndexError` at `list_stage[0]`. -/
def elementMembers {α : Type} (coords_o : List (String × List (Nat × α)))
    (list_stage : List String) : Except PyErr (List Nat) :=
  match list_stage with
  | [] => .error .indexError
  | s0 :: _ => do
    let d0 ← dget coords_o s0
    interFold coords_o list_stage (dkeys d0).dedup

/-- Model of CPython's `list(element_set)` (convert_to.py 92) for a set of
nonnegative ints: buckets in slot order of the initial 8-slot hash table
(slot = value mod 8, since hash is the identity for these values), sorted
within a bucket.  This is the exact CPython enumeration whenever the set
has at most 4 elements occupying DISTINCT slots (no resize, no probing) —
which covers every concrete input below — and it has the correct MEMBERS
for every set.  It is deliberately NOT the dict insertion order of the
first stage.  Beyond the distinct-slot regime this model is a
canonicalization: real CPython enumeration resolves hash collisions by
probing, so it depends on the insertion history of the set, not only on
its membership (e.g. the sets built from key order 0,8 and from key order
8,0 enumerate differently); no theorem below relies on this function's
order outside the exact regime. -/
def cpySetList8 (s : List Nat) : List Nat :=
  (List.range 8).flatMap
    (fun k => List.insertionSort (· ≤ ·) (s.filter (fun v => v % 8 = k)))

/-- Result tuple of `_numpyfi`: the dense tensors.  Value types are
parameters because the Python code moves the per-vertex payloads around
without computing with them.  `element_order` records the intermediate
`element_set` list (convert_to.py 92) that fixes the point ordering of
every tensor; it is the object the vertex-intersection claims speak
about. -/
structure Numpyfied (α β : Type) where
  coords : List (List α)
  strains : List (List (β × β × β))
  force : List ℚ
  time : List ℚ
  mesh : List (Nat × Nat × Nat)
  element_order : List Nat
  deriving DecidableEq, Repr

/-- Embedding of `_numpyfi` (convert_to.py 82-133).  Stage selection by
Python slice over the time dict's keys; vertex intersection over the
coordinate streams; mesh compaction keeping only triangles whose three
vertices survive, reindexed by position in `element_order`; dense stacking
of coordinates and strains; force/time restriction.  The strain triple per
point is read from the streams named `"eps_xx"`, `"eps_yy"` and — exactly
as in the source's line 119 — `"eps_xx"` AGAIN for the third slot (the
`"eps_xy"` stream assembled by the parser is never read here).  The
source's scalar values are 1-tuples and the final `[:, :, :, 0]` unwraps
them; values are modelled unwrapped, so that step is the identity here. -/
def numpyfi {α β : Type} (coords_o : List (String × List (Nat × α)))
    (strains_o : List (String × List (String × List (Nat × β))))
    (force_o time_o : List (String × ℚ)) (mesh_o : List (Nat × Nat × Nat))
    (fstep lstep : Int) (step : Option Nat) :
    Except PyErr (Numpyfied α β) := do
  let list_stage ← pySlice (dkeys time_o) fstep lstep step
  let members ← elementMembers coords_o list_stage
  let element_set := cpySetList8 members
  let mesh := (mesh_o.filter (fun el =>
      el.1 ∈ element_set ∧ el.2.1 ∈ element_set ∧ el.2.2 ∈ element_set)).map
    (fun el => (element_set.indexOf el.1, element_set.indexOf el.2.1,
      element_set.indexOf el.2.2))
  let coords ← list_stage.mapM (fun st => do
    let d ← dget coords_o st
    element_set.mapM (fun el => dget d el))
  let strains ← list_stage.mapM (fun st =>
    element_set.mapM (fun el => do
      let dxx ← dget strains_o "eps_xx"
      let sxx ← dget dxx st
      let vxx ← dget sxx el
      let dyy ← dget strains_o "eps_yy"
      let syy ← dget dyy st
      let vyy ← dget syy el
      let dxx2 ← dget strains_o "eps_xx"
      let sxx2 ← dget dxx2 st
      let vxx2 ← dget sxx2 el
      pure (vxx, vyy, vxx2)))
  let time ← list_stage.mapM (fun st => dget time_o st)
  let force ← list_stage.mapM (fun st => dget force_o st)
  .ok ⟨coords, strains, force, time, mesh, element_set⟩

/-- Index of the last entry satisfying the predicate:
`np.max(np.where(cond))`; an empty selection raises `ValueError`. -/
def lastIdxWhere (p : ℚ → Prop) [DecidablePred p] (l : List ℚ) : Except PyErr Nat :=
  match (((List.range l.length).zip l).filter (fun q => p q.2)).map Prod.fst with
  | [] => .error .valueError
  | i :: is => .ok ((i :: is).foldl max 0)

/-- Index of the first entry satisfying the predicate:
`np.min(np.where(cond))`; an empty selection raises `ValueError`. -/
def firstIdxWhere (p : ℚ → Prop) [DecidablePred p] (l : List ℚ) : Except PyErr Nat :=
  match (((List.range l.length).zip l).filter (fun q => p q.2)).map Prod.fst with
  | [] => .error .valueError
  | i :: _ => .ok i

/-- `np.array(...).max()` of the force series; empty raises `ValueError`. -/
def npMax (l : List ℚ) : Except PyErr ℚ :=
  match l with
  | [] => .error .valueError
  | x :: xs => .ok (xs.foldl max x)

/-- The optional window constraints of `load_from` (convert_to.py 19-26),
with their integer offsets (default 0). -/
structure WinArgs where
  thinning : Option Nat := none
  last_time_step : Option Int := none
  first_timestep : Option Int := none
  force_rupture_frac : Option ℚ := none
  offset_force_rupture : Int := 0
  force_max : Option ℚ := none
  offset_force_max : Int := 0
  force_min : Option ℚ := none
  offset_force_min : Int := 0
  time_min : Option ℚ := none
  offset_time_min : Int := 0
  time_max : Option ℚ := none
  offset_time_max : Int := 0

/-- The stage-window computation of `load_from` (convert_to.py 33-73):
starting from `(0, n)`, each present constraint contributes a lower bound
(combined by `max`) or an upper bound (combined by `min`); the rupture and
force/time thresholds resolve to indices through `np.where` searches over
the force and time series. -/
def windowCalc (args : WinArgs) (force_values time_values : List ℚ) (n : Nat) :
    Except PyErr (Int × Int) := do
  let theFirst : Int := 0
  let theLast : Int := n
  let theLast := match args.last_time_step with
    | some l => min l theLast
    | none => theLast
  let theFirst := match args.first_timestep with
    | some f => max f theFirst
    | none => theFirst
  let theLast ← match args.force_rupture_frac with
    | some r => do
        let m ← npMax force_values
        let rupture ← lastIdxWhere (fun v => r * m ≤ v) force_values
        pure (min ((rupture : Int) + args.offset_force_rupture) theLast)
    | none => pure theLast
  let theLast ← match args.force_max with
    | some fm => do
        let rupture ← lastIdxWhere (fun v => v ≤ fm) force_values
        pure (min ((rupture : Int) + args.offset_force_max) theLast)
    | none => pure theLast
  let theFirst ← match args.force_min with
    | some fm => do
        let rupture ← firstIdxWhere (fun v => fm ≤ v) force_values
        pure (max ((rupture : Int) + args.offset_force_min) theFirst)
    | none => pure theFirst
  let theFirst ← match args.time_min with
    | some tm => do
        let start ← firstIdxWhere (fun v => tm ≤ v) time_values
        pure (max ((start : Int) + args.offset_time_min) theFirst)
    | none => pure theFirst
  let theLast ← match args.time_max with
    | some tm => do
        let stop ← firstIdxWhere (fun v => tm ≤ v) time_values
        pure (min ((stop : Int) + args.offset_time_max) theLast)
    | none => pure theLast
  .ok (theFirst, theLast)

/-- Result of `load_from`: the assembled tensors plus the mesh topology
attributes that `DIC_Result.__init__` derives (`mesh_holes`,
`has_mesh_holes`).  The node-normal field that `__init__` also computes is
a numerical SVD (`node_surface_normal`, mesh_utils.py 17-51) that always
yields an array for the inputs below and is inspected by no claim; it is
outside this model. -/
structure LoadResult (α β : Type) where
  data : Numpyfied α β
  mesh_holes_list : List (List (Nat × Nat))
  has_mesh_holes : Bool
  deriving DecidableEq, Repr

/-- Embedding of `load_from` (convert_to.py 19-79) after the parser call:
window computation, `_numpyfi`, then the `DIC_Result` construction with
its mesh-topology initialisation (`len(mesh_holes(mesh)) > 1`, where a
boundary-less mesh makes `mesh_holes` return `None` and `len(None)` raise
`TypeError`). -/
def load_from {α β : Type} (args : WinArgs)
    (coords_o : List (String × List (Nat × α)))
    (strains_o : List (String × List (String × List (Nat × β))))
    (force_o time_o : List (String × ℚ)) (mesh_o : List (Nat × Nat × Nat)) :
    Except PyErr (LoadResult α β) := do
  let force_values := (force_o.map Prod.snd)
  let time_values := (time_o.map Prod.snd)
  let n := (dkeys coords_o).length
  let (theFirst, theLast) ← windowCalc args force_values time_values n
  let out ← numpyfi coords_o strains_o force_o time_o mesh_o theFirst theLast
    args.thinning
  let holesO ← mesh_holes out.mesh
  match holesO with
  | none => .error .typeError
  | some hs => .ok ⟨out, hs, hs.length > 1⟩

/-! ## HDF5Exchange.py -/

/-- A 3-vector of rationals (a row of a `(..., 3)` float tensor). -/
abbrev Vec3 := ℚ × ℚ × ℚ

/-- A `(n_timesteps, n_points, 3)` float tensor. -/
abbrev Tens3 := List (List Vec3)

/-- The `DIC_Result` object state after `__init__` (HDF5Exchange.py
25-78): the five tensors, the metadata dict, and the mesh-topology
attributes `mesh_holes` / `has_mesh_holes` computed by
`_init_mesh_property`.  The `node_normals` field is the array passed in
(the claims below always construct results with an explicit normal field,
so the numerical `_compute_node_normal` SVD path is never taken). -/
structure DICResult where
  strains : Tens3
  coords : Tens3
  force : List ℚ
  time : List ℚ
  mesh : List (Nat × Nat × Nat)
  meta_data : List (String × String)
  node_normals : Tens3
  mesh_holes_attr : List (List (Nat × Nat))
  has_mesh_holes : Bool
  deriving DecidableEq, Repr

/-- Embedding of `DIC_Result.__init__` with a provided normal field
(HDF5Exchange.py 25-78): store the tensors, set the default metadata
`{"version": "0.1"}`, and run `_init_mesh_property`, which calls
`mesh_utils.mesh_holes` and takes `len(...) > 1` — raising `TypeError`
when `mesh_holes` returned `None` (boundary-less mesh). -/
def mkDICResult (coords strains : Tens3) (force time : List ℚ)
    (mesh : List (Nat × Nat × Nat)) (node_normal : Tens3) :
    Except PyErr DICResult := do
  let holesO ← mesh_holes mesh
  match holesO with
  | none => .error .typeError
  | some hs =>
      .ok ⟨strains, coords, force, time, mesh, [("version", "0.1")],
        node_normal, hs, hs.length > 1⟩

/-- The HDF5 container layout written by `save_to_hdf5` (HDF5Exchange.py
83-105): document attributes, the two datasets of the `scalar` group, the
three datasets of the `vector` group, and the top-level `mesh` dataset.
Field names carry the DATASET names (`time_ds` is `scalar/time` etc.). -/
structure H5File where
  attrs : List (String × String)
  time_ds : List ℚ
  force_ds : List ℚ
  strains_ds : Tens3
  coordinates_ds : Tens3
  node_normals_ds : Tens3
  mesh_ds : List (Nat × Nat × Nat)
  deriving DecidableEq, Repr

/-- Embedding of `DIC_Result.save_to_hdf5` (HDF5Exchange.py 83-105): each
attribute and tensor is written to its like-named dataset. -/
def save_to_hdf5 (r : DICResult) : H5File :=
  ⟨r.meta_data, r.time, r.force, r.strains, r.coords, r.node_normals, r.mesh⟩

/-- Embedding of `DIC_Result.load_from_hdf5` (HDF5Exchange.py 107-142).
Note lines 125-126 of the source:
`force = np.array(h5file["scalar"]["time"])` and
`time = np.array(h5file["scalar"]["force"])` — the `force` variable is
read from the `time` dataset and vice versa.  The node-normal dataset is
present in every file produced by `save_to_hdf5`, so the `except KeyError`
branch (which would defer to the numerical normal estimation) is not
taken.  The constructor runs `__init__` and the metadata is then
overwritten with the file attributes. -/
def load_from_hdf5 (f : H5File) : Except PyErr DICResult := do
  let force := f.time_ds
  let time := f.force_ds
  let coords := f.coordinates_ds
  let strains := f.strains_ds
  let node_normals := f.node_normals_ds
  let mesh := f.mesh_ds
  let r ← mkDICResult coords strains force time mesh node_normals
  .ok { r with meta_data := f.attrs }

/-- Elementwise `coords + vector` broadcast (the expression of
HDF5Exchange.py line 200). -/
def tensAdd (c : Tens3) (v : Vec3) : Tens3 :=
  c.map (fun row => row.map (fun p =>
    (p.1 + v.1, p.2.1 + v.2.1, p.2.2 + v.2.2)))

/-- Embedding of `DIC_Result.translate` (HDF5Exchange.py 194-200): the
body evaluates `self.coords + vector` and discards the resulting array —
no attribute is assigned, so the object is returned unchanged. -/
def translate (r : DICResult) (v : Vec3) : DICResult :=
  let _discarded := tensAdd r.coords v
  r

/-! ## parsers.py: strain channel identification (ARAMIS_XML_Parser.parse) -/

/-- Python `re.match("^.*PAT.*$", s)` for a literal pattern `PAT` is
substring containment when `s` contains no newline (the component names at
hand never do). -/
def pyContains (s pat : String) : Bool :=
  decide (pat.toList <:+: s.toList)

/-- The shear pattern `re_epx_xy = "^.*epsXY.*$"` (parsers.py 85). -/
def matchXY (s : String) : Bool := pyContains s "epsXY"

/-- The Y-normal pattern `re_eps_yy = "^.*epsY.*$"` (parsers.py 87). -/
def matchYY (s : String) : Bool := pyContains s "epsY"

/-- The X-normal pattern `re_eps_xx = "^.*epsX.*$"` (parsers.py 86). -/
def matchXX (s : String) : Bool := pyContains s "epsX"

/-- The break condition of the `eps_xx` loop (parsers.py 99-103): matches
the X pattern but not the shear pattern. -/
def matchXXonly (s : String) : Bool := matchXX s && !matchXY s

/-- Python `names[i]` with `IndexError` on overflow. -/
def pyGet (names : List String) (i : Nat) : Except PyErr String :=
  match names[i]? with
  | some s => .ok s
  | none => .error .indexError

/-- One of the three `for i in range(3)` search loops of `parse`
(parsers.py 89-103): test the first three component names in order,
break at the first match, leave the key `None` when none of the three
matches.  `names[i]` is evaluated before the test, so a list shorter than
3 without an earlier match raises `IndexError`. -/
def loop3 (p : String → Bool) (names : List String) : Except PyErr (Option Nat) := do
  let n0 ← pyGet names 0
  if p n0 then pure (some 0) else do
  let n1 ← pyGet names 1
  if p n1 then pure (some 1) else do
  let n2 ← pyGet names 2
  if p n2 then pure (some 2) else pure none

/-- The three channel searches of `parse` in source order (parsers.py
89-103): shear first, then Y-normal, then X-normal-not-shear.  Returned as
`(eps_xx_key, eps_yy_key, eps_xy_key)`. -/
def identifyChannels (names : List String) :
    Except PyErr (Option Nat × Option Nat × Option Nat) := do
  let xy ← loop3 matchXY names
  let yy ← loop3 matchYY names
  let xx ← loop3 matchXXonly names
  pure (xx, yy, xy)

/-- Python `list_epsilon[key]` where `key` may still be `None`: indexing a
list with `None` raises `TypeError` (parsers.py 113-115). -/
def pyGetOpt (names : List String) (key : Option Nat) : Except PyErr String :=
  match key with
  | none => .error .typeError
  | some i => pyGet names i

/-- The strain dict construction of `parse` (parsers.py 79-115): run the
three channel searches over the component-name list, then build
`strains = {"eps_xx": ..., "eps_yy": ..., "eps_xy": ...}` by looking the
resolved names up in `comparison_surface_list`, in exactly the source's
order (`eps_xx` first, so an unresolved X channel fails first). -/
def parseStrains {σ : Type} (comparison_surface_list : List (String × σ)) :
    Except PyErr (List (String × σ)) := do
  let list_epsilon := dkeys comparison_surface_list
  let (xx, yy, xy) ← identifyChannels list_epsilon
  let kxx ← pyGetOpt list_epsilon xx
  let sxx ← dget comparison_surface_list kxx
  let kyy ← pyGetOpt list_epsilon yy
  let syy ← dget comparison_surface_list kyy
  let kxy ← pyGetOpt list_epsilon xy
  let sxy ← dget comparison_surface_list kxy
  pure [("eps_xx", sxx), ("eps_yy", syy), ("eps_xy", sxy)]

/-! ## Concrete documents and meshes used by the claim theorems -/

/-- The 4-triangle patch of the hole-detection claim (triangle corners
0, 1, 2 with edge midpoints 3, 4, 5): three corner triangles around the
center triangle `(3,4,5)`. -/
def intactPatch : List (Nat × Nat × Nat) := [(0, 3, 5), (3, 1, 4), (5, 4, 2), (3, 4, 5)]

/-- The same patch with its center triangle removed, leaving one internal
hole. -/
def holedPatch : List (Nat × Nat × Nat) := [(0, 3, 5), (3, 1, 4), (5, 4, 2)]

/-- One-stage coordinate streams of the strain-assembly document: a single
stage `"s0"` with a single valid vertex `0`. -/
def c1coords : List (String × List (Nat × Nat)) := [("s0", [(0, 100)])]

/-- Component streams of the strain-assembly document, named as an ARAMIS
export would name them: distinct payloads 11 / 22 / 33 for the eps_xx /
eps_yy / eps_xy channels at stage `"s0"`, vertex `0`. -/
def c1surface : List (String × List (String × List (Nat × Nat))) :=
  [("epsX_field", [("s0", [(0, 11)])]),
   ("epsY_field", [("s0", [(0, 22)])]),
   ("epsXY_field", [("s0", [(0, 33)])])]

/-- The strain dict `parse` builds from `c1surface` (parsers.py 111-115). -/
def c1dict : List (String × List (String × List (Nat × Nat))) :=
  [("eps_xx", [("s0", [(0, 11)])]),
   ("eps_yy", [("s0", [(0, 22)])]),
   ("eps_xy", [("s0", [(0, 33)])])]

/-- Force series of the strain-assembly document. -/
def c1force : List (String × ℚ) := [("s0", 5)]

/-- Time series of the strain-assembly document. -/
def c1time : List (String × ℚ) := [("s0", 0)]

/-- A two-stage document whose vertex indices 7 and 8 land in hash slots
7 and 0 of CPython's 8-slot set table, so that `list(set(...))`
enumerates them as `[8, 7]` while the stage dicts insert them as
`[7, 8]`. -/
def c9coords : List (String × List (Nat × Nat)) :=
  [("a", [(7, 70), (8, 80)]), ("b", [(7, 71), (8, 81)])]

/-- Strain streams of the two-stage document. -/
def c9strains : List (String × List (String × List (Nat × Nat))) :=
  [("eps_xx", [("a", [(7, 1), (8, 2)]), ("b", [(7, 3), (8, 4)])]),
   ("eps_yy", [("a", [(7, 5), (8, 6)]), ("b", [(7, 7), (8, 8)])]),
   ("eps_xy", [("a", [(7, 9), (8, 10)]), ("b", [(7, 11), (8, 12)])])]

/-- Force series of the two-stage document. -/
def c9force : List (String × ℚ) := [("a", 1), ("b", 2)]

/-- Time series of the two-stage document. -/
def c9time : List (String × ℚ) := [("a", 0), ("b", 1)]

/-- A four-stage document with three vertices valid at every stage, used
by the window claims. -/
def c4coords : List (String × List (Nat × Nat)) :=
  [("a", [(0, 1), (1, 2), (2, 3)]), ("b", [(0, 4), (1, 5), (2, 6)]),
   ("c", [(0, 7), (1, 8), (2, 9)]), ("d", [(0, 10), (1, 11), (2, 12)])]

/-- A constant per-stage strain stream over the four stages. -/
def c4stream (v : Nat) : List (String × List (Nat × Nat)) :=
  [("a", [(0, v), (1, v), (2, v)]), ("b", [(0, v), (1, v), (2, v)]),
   ("c", [(0, v), (1, v), (2, v)]), ("d", [(0, v), (1, v), (2, v)])]

/-- Strain streams of the four-stage document. -/
def c4strains : List (String × List (String × List (Nat × Nat))) :=
  [("eps_xx", c4stream 1), ("eps_yy", c4stream 2), ("eps_xy", c4stream 3)]

/-- Force series of the four-stage document. -/
def c4force : List (String × ℚ) := [("a", 1), ("b", 2), ("c", 3), ("d", 4)]

/-- Time series of the four-stage document. -/
def c4time : List (String × ℚ) := [("a", 0), ("b", 1), ("c", 2), ("d", 3)]

/-- Mesh of the four-stage document: one triangle over the three common
vertices. -/
def c4mesh : List (Nat × Nat × Nat) := [(0, 1, 2)]

/-- Window arguments with an explicit negative last stage: combined lower
bound 0, combined upper bound -3. -/
def c4argsNeg : WinArgs := { last_time_step := some (-3) }

/-- Window arguments with explicit first stage 3 and last stage 1:
combined lower bound 3 exceeds combined upper bound 1, both within the
document. -/
def c4argsSwap : WinArgs := { first_timestep := some 3, last_time_step := some 1 }

/-- A minimal version-0 scalar payload: `version = 0`, `n_vertices = 0`.
Structurally complete, no unit-name field because the version predates
it. -/
def c6payloadV0 : List Nat := [0, 0, 0, 0, 0, 0, 0, 0]

/-- A version-1 scalar payload carrying the unexpected unit name `"xyz"`
and no vertices. -/
def c6payloadOddUnit : List Nat :=
  [1, 0, 0, 0, 3, 0, 0, 0] ++ [120, 121, 122] ++ [0, 0, 0, 0]

/-- A version-1 scalar payload with the expected `"log_strain"` unit, zero
vertices, and one trailing byte `99` that no record consumes. -/
def c7payloadTrailing : List Nat :=
  [1, 0, 0, 0, 10, 0, 0, 0] ++
  [108, 111, 103, 95, 115, 116, 114, 97, 105, 110] ++ [0, 0, 0, 0] ++ [99]

/-- A minimal valid quantized-geometry payload: all-zero `"<I6dI"` header
(zero vertices), exactly 56 bytes. -/
def c7payloadVerts : List Nat := List.replicate 56 0

/-- A DIC result used by the persistence round-trip claim: one timestep,
three points, one triangle, distinct `time` and `force` values. -/
def rtResult : DICResult :=
  { strains := [[(1, 2, 3), (4, 5, 6), (7, 8, 9)]]
    coords := [[(0, 0, 0), (1, 0, 0), (0, 1, 0)]]
    force := [5]
    time := [0]
    mesh := [(0, 1, 2)]
    meta_data := [("version", "0.1")]
    node_normals := [[(0, 0, 1), (0, 0, 1), (0, 0, 1)]]
    mesh_holes_attr := [[(0, 1), (1, 2), (2, 0)]]
    has_mesh_holes := false }

/-- The result `load_from_hdf5` reconstructs from `save_to_hdf5 rtResult`:
identical except that `time` and `force` have traded places. -/
def rtLoaded : DICResult :=
  { rtResult with force := [0], time := [5] }

/-! ## General lemmas about the embedded monadic code -/

@[simp]
theorem pure_eq_ok {α : Type} (a : α) : (pure a : Except PyErr α) = .ok a := rfl

@[simp]
theorem ok_bind {α β : Type} (a : α) (f : α → Except PyErr β) :
    (Except.ok a >>= f) = f a := rfl

@[simp]
theorem error_bind {α β : Type} (e : PyErr) (f : α → Except PyErr β) :
    (Except.error e >>= f : Except PyErr β) = Except.error e := rfl

theorem except_bind_ok {α β : Type} {x : Except PyErr α} {f : α → Except PyErr β}
    {b : β} : (x >>= f) = .ok b ↔ ∃ a, x = .ok a ∧ f a = .ok b := by
  cases x <;> simp

/-- Looking up a key that occurs in the dict succeeds. -/
theorem dget_of_mem_keys {α κ : Type} [DecidableEq κ] {d : List (κ × α)} {k : κ}
    (h : k ∈ dkeys d) : ∃ v, dget d k = .ok v := by
  obtain ⟨p, hp, rfl⟩ := List.mem_map.mp h
  have : (d.find? (fun q => q.1 = p.1)).isSome := by
    rw [List.find?_isSome]
    exact ⟨p, hp, by simp⟩
  obtain ⟨q, hq⟩ := Option.isSome_iff_exists.mp this
  exact ⟨q.2, by simp [dget, hq]⟩

/-- A search loop over at least three names returns a value (it cannot
raise `IndexError`), and a successful index points at a name of the
list. -/
theorem loop3_cases {p : String → Bool} {names : List String}
    (hlen : 3 ≤ names.length) :
    loop3 p names = .ok none ∨
      ∃ i s, loop3 p names = .ok (some i) ∧ names[i]? = some s := by
  match names, hlen with
  | a :: b :: c :: rest, _ =>
    by_cases ha : p a
    · exact .inr ⟨0, a, by simp [loop3, pyGet, ha], by simp⟩
    · by_cases hb : p b
      · exact .inr ⟨1, b, by simp [loop3, pyGet, ha, hb], by simp⟩
      · by_cases hc : p c
        · exact .inr ⟨2, c, by simp [loop3, pyGet, ha, hb, hc], by simp⟩
        · exact .inl (by simp [loop3, pyGet, ha, hb, hc])

/-- A search loop over at least three names none of whose first three
entries matches returns `None`. -/
theorem loop3_none {p : String → Bool} {names : List String}
    (hlen : 3 ≤ names.length) (h : ∀ s ∈ names.take 3, p s = false) :
    loop3 p names = .ok none := by
  match names, hlen with
  | a :: b :: c :: rest, _ =>
    have ha := h a (by simp)
    have hb := h b (by simp)
    have hc := h c (by simp)
    simp [loop3, pyGet, ha, hb, hc]

/-- Membership from a successful index lookup. -/
theorem memOfGet {α : Type} {l : List α} {i : Nat} {a : α} (h : l[i]? = some a) :
    a ∈ l := by
  obtain ⟨hi, rfl⟩ := List.getElem?_eq_some.mp h
  exact List.getElem_mem hi

/-! ## Lemmas for the boundary-extraction parity claim -/

/-- Number of triangles of the list one of whose edges is `e` ("the edge
appears in `triCount e mesh` triangles"). -/
def triCount (e : HalfEdge) (mesh : List (Nat × Nat × Nat)) : Nat :=
  (mesh.filter (fun t => decide (e ∈ triEdges t))).length

/-- Two unordered pairs are equal exactly when the underlying vertex pairs
match up to swap. -/
theorem mkEdge_eq_iff {a b c d : Nat} :
    mkEdge a b = mkEdge c d ↔ (a = c ∧ b = d) ∨ (a = d ∧ b = c) := by
  unfold mkEdge
  split_ifs <;> simp [Prod.ext_iff] <;> omega

/-- The toggle step keeps the working set duplicate free. -/
theorem toggleEdge_nodup {ws : List HalfEdge} (h : ws.Nodup) (e : HalfEdge) :
    (toggleEdge ws e).Nodup := by
  unfold toggleEdge
  split_ifs with he
  · exact h.erase e
  · simp [List.nodup_append, h, he]

/-- Toggling `e` flips exactly the membership of `e` (on a duplicate-free
working set). -/
theorem mem_toggleEdge {ws : List HalfEdge} (h : ws.Nodup) (e f : HalfEdge) :
    f ∈ toggleEdge ws e ↔ Xor' (f ∈ ws) (f = e) := by
  unfold toggleEdge
  by_cases hfe : f = e
  · subst hfe
    split_ifs with he
    · simp [Xor', he, List.Nodup.mem_erase_iff h]
    · simp [Xor', he]
  · split_ifs with he
    · rw [List.Nodup.mem_erase_iff h]
      simp [Xor', hfe]
    · simp [Xor', hfe]

/-- Folding the toggle over a list of edges ends with `f` in the working
set exactly when its initial membership differs from the parity of its
occurrence count (the invariant of the parity argument). -/
theorem foldl_toggle_spec (es : List HalfEdge) :
    ∀ ws : List HalfEdge, ws.Nodup →
      (es.foldl toggleEdge ws).Nodup ∧
      ∀ f, (f ∈ es.foldl toggleEdge ws ↔ Xor' (f ∈ ws) (Odd (es.count f))) := by
  induction es with
  | nil =>
    intro ws h
    refine ⟨h, fun f => ?_⟩
    simp [Xor', Nat.odd_iff]
  | cons e rest ih =>
    intro ws h
    obtain ⟨hn, hm⟩ := ih (toggleEdge ws e) (toggleEdge_nodup h e)
    refine ⟨hn, fun f => ?_⟩
    rw [List.foldl_cons, hm f, mem_toggleEdge h e f, List.count_cons]
    by_cases hfe : f = e
    · simp only [hfe, beq_self_eq_true, if_true]
      rw [Nat.odd_add_one]
      unfold Xor'
      tauto
    · have : ¬ (e == f) := by simpa using fun hx => hfe hx.symm
      simp only [this, if_false, Nat.add_zero]
      unfold Xor'
      tauto

/-- The nested fold of `mesh_boundaries` is the flat fold over all edges
in document order. -/
theorem mesh_boundaries_eq (mesh : List (Nat × Nat × Nat)) :
    mesh_boundaries mesh = (mesh.flatMap triEdges).foldl toggleEdge [] := by
  unfold mesh_boundaries
  generalize ([] : List HalfEdge) = ws
  induction mesh generalizing ws with
  | nil => rfl
  | cons t rest ih => simp [List.flatMap_cons, List.foldl_append, ih]

/-- A nondegenerate triangle contributes each of its edges exactly once. -/
theorem count_triEdges_eq {t : Nat × Nat × Nat}
    (h : t.1 ≠ t.2.1 ∧ t.2.1 ≠ t.2.2 ∧ t.1 ≠ t.2.2) (e : HalfEdge) :
    (triEdges t).count e = if e ∈ triEdges t then 1 else 0 := by
  obtain ⟨a, b, c⟩ := t
  dsimp only at h
  obtain ⟨hab, hbc, hac⟩ := h
  have h12 : mkEdge a b ≠ mkEdge b c := by
    rw [ne_eq, mkEdge_eq_iff]; omega
  have h13 : mkEdge a b ≠ mkEdge a c := by
    rw [ne_eq, mkEdge_eq_iff]; omega
  have h23 : mkEdge b c ≠ mkEdge a c := by
    rw [ne_eq, mkEdge_eq_iff]; omega
  simp only [triEdges]
  by_cases h1 : e = mkEdge a b <;> by_cases h2 : e = mkEdge b c <;>
    by_cases h3 : e = mkEdge a c <;>
    first
      | (exact absurd (h1.symm.trans h2) h12)
      | (exact absurd (h1.symm.trans h3) h13)
      | (exact absurd (h2.symm.trans h3) h23)
      | (simp [List.count_cons, List.count_nil, List.mem_cons,
          h1, h2, h3, h12, h13, h23])

/-- Summing the per-triangle edge occurrences over a nondegenerate mesh
counts the triangles containing the edge. -/
theorem count_flatMap_triEdges (mesh : List (Nat × Nat × Nat))
    (hnd : ∀ t ∈ mesh, t.1 ≠ t.2.1 ∧ t.2.1 ≠ t.2.2 ∧ t.1 ≠ t.2.2)
    (e : HalfEdge) :
    (mesh.flatMap triEdges).count e = triCount e mesh := by
  induction mesh with
  | nil => rfl
  | cons t rest ih =>
    have ht := hnd t (by simp)
    have hrest : ∀ s ∈ rest, s.1 ≠ s.2.1 ∧ s.2.1 ≠ s.2.2 ∧ s.1 ≠ s.2.2 :=
      fun s hs => hnd s (List.mem_cons_of_mem t hs)
    rw [List.flatMap_cons, List.count_append, count_triEdges_eq ht e, ih hrest]
    unfold triCount
    rw [List.filter_cons]
    by_cases hmem : e ∈ triEdges t <;> simp [hmem, Nat.add_comm]

/-! ## Lemmas for the vertex-intersection claim -/

/-- Membership after the intersection fold: in the accumulator and in
every visited stage's key set. -/
theorem mem_interFold {α : Type} (coords_o : List (String × List (Nat × α))) :
    ∀ (l : List String) (acc out : List Nat),
      interFold coords_o l acc = .ok out →
      ∀ x, (x ∈ out ↔ x ∈ acc ∧
        ∀ st ∈ l, ∀ d, dget coords_o st = .ok d → x ∈ dkeys d) := by
  intro l
  induction l with
  | nil =>
    intro acc out h x
    cases h
    simp
  | cons st rest ih =>
    intro acc out h x
    unfold interFold at h
    cases hd : dget coords_o st with
    | error e =>
      rw [hd] at h
      cases h
    | ok d =>
      rw [hd] at h
      simp only [ok_bind] at h
      rw [ih _ _ h x, List.mem_filter]
      constructor
      · rintro ⟨⟨hacc, hkd⟩, hrest⟩
        refine ⟨hacc, fun st2 hst2 d2 hd2 => ?_⟩
        rcases List.mem_cons.mp hst2 with rfl | hst2
        · rw [hd] at hd2
          cases hd2
          simpa using hkd
        · exact hrest st2 hst2 d2 hd2
      · rintro ⟨hacc, hall⟩
        refine ⟨⟨hacc, ?_⟩, fun st2 hst2 d2 hd2 =>
          hall st2 (List.mem_cons_of_mem st hst2) d2 hd2⟩
        simpa using hall st (List.mem_cons_self st rest) d hd

/-- Membership in the element set computed by `_numpyfi`: valid in every
selected stage's coordinate stream. -/
theorem elementMembers_spec {α : Type} (coords_o : List (String × List (Nat × α)))
    (l : List String) (out : List Nat) (h : elementMembers coords_o l = .ok out) :
    ∀ x, x ∈ out ↔ ∀ st ∈ l, ∀ d, dget coords_o st = .ok d → x ∈ dkeys d := by
  match l with
  | [] => cases h
  | s0 :: rest =>
    unfold elementMembers at h
    dsimp only at h
    cases hd : dget coords_o s0 with
    | error e => rw [hd] at h; cases h
    | ok d0 =>
      rw [hd] at h
      simp only [ok_bind] at h
      intro x
      rw [mem_interFold coords_o (s0 :: rest) _ out h x]
      constructor
      · rintro ⟨-, hall⟩
        exact hall
      · intro hall
        refine ⟨?_, hall⟩
        have := hall s0 (List.mem_cons_self s0 rest) d0 hd
        simpa [List.mem_dedup] using this

/-- The modelled CPython enumeration has exactly the members of the set it
enumerates. -/
theorem mem_cpySetList8 (s : List Nat) (x : Nat) :
    x ∈ cpySetList8 s ↔ x ∈ s := by
  unfold cpySetList8
  simp only [List.mem_flatMap, List.mem_range]
  constructor
  · rintro ⟨k, -, hx⟩
    have := (List.perm_insertionSort (· ≤ ·) _).mem_iff.mp hx
    exact (List.mem_filter.mp this).1
  · intro hx
    refine ⟨x % 8, Nat.mod_lt x (by norm_num), ?_⟩
    rw [(List.perm_insertionSort (· ≤ ·) _).mem_iff]
    exact List.mem_filter.mpr ⟨hx, by simp⟩

/-! ## Lemmas for the temporal-window claim -/

/-- A Python slice whose normalised stop does not exceed its normalised
start (in particular `0 ≤ stop ≤ start`) is empty. -/
theorem pySlice_empty {α : Type} (l : List α) {f t : Int} (step : Option Nat)
    (hl : 0 ≤ t) (hft : t ≤ f) (hstep : step ≠ some 0) :
    pySlice l f t step = .ok [] := by
  have hle : pyIdx l.length t ≤ pyIdx l.length f := by
    unfold pyIdx
    split_ifs <;> omega
  have hbase : (l.drop (pyIdx l.length f)).take
      (pyIdx l.length t - pyIdx l.length f) = [] := by
    rw [Nat.sub_eq_zero_of_le hle, List.take_zero]
  unfold pySlice
  match step with
  | none => simp [hbase]
  | some 0 => exact absurd rfl hstep
  | some (k + 1) => simp [hbase, everyNth]

/-! ## Claim theorems -/

/-- C1: the claim says the third strain channel of the assembled tensor
comes from the identified shear (eps_xy) stream.  The parser does identify
the shear stream and stores it under `"eps_xy"` (here: payload 33), but
`_numpyfi` line 119 stacks `strains_o["eps_xx"]` into the third slot, so
the assembled triple at the only (timestep, point) is `(11, 22, 11)` — the
eps_xx value again — while the shear stream holds 33 there. -/
theorem c1_third_strain_channel :
    parseStrains c1surface = .ok c1dict ∧
    numpyfi c1coords c1dict c1force c1time [] 0 1 none =
      .ok ⟨[[100]], [[(11, 22, 11)]], [5], [0], [], [0]⟩ ∧
    (dget c1dict "eps_xy" >>= fun d => dget d "s0" >>= fun s => dget s 0) =
      .ok 33 ∧
    (33 : Nat) ≠ 11 := by
  refine ⟨by rfl, by rfl, by rfl, by decide⟩

/-- C2: the claim says save-then-load reproduces every stored tensor.  On
the concrete result `rtResult` the round trip through the container swaps
`time` and `force` (HDF5Exchange.py 125-126 read `force` from the
`scalar/time` dataset and `time` from `scalar/force`), while strains,
coordinates, normals, mesh and metadata do round-trip. -/
theorem c2_roundtrip_swaps_time_force :
    mkDICResult rtResult.coords rtResult.strains rtResult.force rtResult.time
      rtResult.mesh rtResult.node_normals = .ok rtResult ∧
    load_from_hdf5 (save_to_hdf5 rtResult) = .ok rtLoaded ∧
    rtLoaded.time = rtResult.force ∧
    rtLoaded.force = rtResult.time ∧
    rtLoaded.time ≠ rtResult.time ∧
    rtLoaded.strains = rtResult.strains ∧
    rtLoaded.coords = rtResult.coords ∧
    rtLoaded.node_normals = rtResult.node_normals ∧
    rtLoaded.mesh = rtResult.mesh ∧
    rtLoaded.meta_data = rtResult.meta_data := by
  refine ⟨by rfl, by rfl, by rfl, by rfl, by decide, by rfl, by rfl, by rfl,
    by rfl, by rfl⟩

/-- C3: the claim says the holed patch yields two boundary loops and a
true has-holes predicate, the intact patch one loop and false.  Because
`return holes` sits inside the `while` loop of `mesh_holes`
(mesh_utils.py 113), the function returns after the FIRST assembled loop:
both patches report exactly one loop and `has_mesh_hole` is false for
both. -/
theorem c3_hole_detection_broken :
    numLoops intactPatch = .ok (some 1) ∧
    has_mesh_hole intactPatch = .ok false ∧
    numLoops holedPatch = .ok (some 1) ∧
    has_mesh_hole holedPatch = .ok false := by
  refine ⟨by rfl, by rfl, by rfl, by rfl⟩

/-- C6: the claim says an unexpected physical-unit name never makes the
scalar decode fail, including when no unit name is present (version < 1).
For a version ≥ 1 payload with the odd unit `"xyz"` the decoder indeed
warns and returns the maps; but for a structurally well-formed version-0
payload the warning construction `"strain is not log strain, but " +
unit_name` concatenates a string with `None` and raises `TypeError`, so
the decode fails. -/
theorem c6_unit_warning :
    read_surface_component_scalar c6payloadV0 = .error .typeError ∧
    read_surface_component_scalar c6payloadOddUnit =
      .ok ⟨[], [], false, some "xyz", true, []⟩ := by
  refine ⟨by rfl, by rfl⟩

/-- C7 counterexample: the claim says every decode whose consumed byte
count differs from the payload length fails with a DecodeError.  The
scalar-field decoder performs no such check: this payload has one trailing
byte `99` that no record consumes, yet the decode returns a result (with
the unconsumed suffix `[99]`). -/
theorem c7_counterexample :
    read_surface_component_scalar c7payloadTrailing =
      .ok ⟨[], [], false, some "log_strain", false, [99]⟩ ∧
    ([99] : List Nat) ≠ [] := by
  refine ⟨by rfl, by decide⟩

/-- C9 counterexample: the claim says the retained vertex list is ordered
by the first selected stage's insertion order.  On the two-stage document
whose first stage inserts keys in order `[7, 8]`, the assembled element
order (Python `list(set(...))`, convert_to.py 92, enumerated in CPython
hash-slot order) is `[8, 7]`. -/
theorem c9_counterexample :
    (numpyfi c9coords c9strains c9force c9time [] 0 2 none).map
      (fun out => out.element_order) = .ok [8, 7] ∧
    dkeys [(7, (70 : Nat)), (8, 80)] = [7, 8] ∧
    ([8, 7] : List Nat) ≠ [7, 8] := by
  refine ⟨by rfl, by rfl, by decide⟩

/-- C4 counterexample: the claim says that whenever the combined lower
bound exceeds the combined upper bound no stage is left and loading fails.
With an explicit `last_time_step = -3` on a four-stage document the
combined bounds are `(0, -3)` — lower exceeds upper — yet Python's
negative-index slicing keeps the first stage and loading succeeds. -/
theorem c4_counterexample :
    windowCalc c4argsNeg (c4force.map Prod.snd) (c4time.map Prod.snd)
      (dkeys c4coords).length = .ok (0, -3) ∧
    (-3 : Int) < 0 ∧
    (load_from c4argsNeg c4coords c4strains c4force c4time c4mesh).isOk = true := by
  refine ⟨by rfl, by decide, by rfl⟩

/-- C7 (amended): the quantized vertex geometry decode really does enforce
the structural length check — whenever it returns a result, every payload
byte was consumed (a payload with trailing or missing bytes fails).  The
scalar-field decode has no such check (see the counterexample). -/
theorem c7_vertices_consume_all (msg : List Nat) (out : VertsOut)
    (h : read_surface_component_vertices msg = .ok out) : out.rest = [] := by
  unfold read_surface_component_vertices at h
  rw [except_bind_ok] at h
  obtain ⟨⟨version, mins, maxs, n, pairs, rest⟩, -, h⟩ := h
  by_cases h1 : rest = []
  · subst h1
    simp only [ne_eq, not_true_eq_false, if_false] at h
    split_ifs at h with h2
    all_goals
      simp only [Except.ok.injEq] at h
      subst h
      rfl
  · simp only [ne_eq, h1, not_false_eq_true, if_true] at h
    cases h

/-- Witness for C7: a complete 56-byte zero header decodes, and the
theorem applies to it. -/
theorem c7_vertices_consume_all_witness :
    (⟨0, (0, 0, 0), (0, 0, 0), [], []⟩ : VertsOut).rest = [] :=
  c7_vertices_consume_all c7payloadVerts ⟨0, (0, 0, 0), (0, 0, 0), [], []⟩ (by rfl)

/-- C5 (amended): strain-channel identification fails (with the unhandled
`TypeError` from indexing `list_epsilon[None]`, parsers.py 113-115 — the
code's realization of the spec's AmbiguousFieldError) whenever one of the
three patterns matches none of the FIRST THREE component names; when a
pattern matches several names, the earliest match is used silently (see
the counterexample). -/
theorem c5_no_match_fails {σ : Type} (surf : List (String × σ))
    (hlen : 3 ≤ surf.length)
    (hmiss : (∀ s ∈ (dkeys surf).take 3, matchXXonly s = false) ∨
             (∀ s ∈ (dkeys surf).take 3, matchYY s = false) ∨
             (∀ s ∈ (dkeys surf).take 3, matchXY s = false)) :
    parseStrains surf = .error .typeError := by
  have hlen2 : 3 ≤ (dkeys surf).length := by
    simpa [dkeys] using hlen
  rcases hmiss with hm | hm | hm
  · have hxx := loop3_none hlen2 hm
    rcases loop3_cases (p := matchXY) hlen2 with hxy | ⟨i, s, hxy, hs⟩ <;>
    rcases loop3_cases (p := matchYY) hlen2 with hyy | ⟨j, t, hyy, ht⟩ <;>
      simp [parseStrains, identifyChannels, hxx, hxy, hyy, pyGetOpt]
  · have hyy := loop3_none hlen2 hm
    rcases loop3_cases (p := matchXY) hlen2 with hxy | ⟨i, s, hxy, hs⟩ <;>
    rcases loop3_cases (p := matchXXonly) hlen2 with hxx | ⟨j, t, hxx, ht⟩ <;>
      simp only [parseStrains, identifyChannels, hxx, hxy, hyy, pyGetOpt,
        ok_bind, error_bind, pure_eq_ok] <;>
      first
        | rfl
        | (obtain ⟨v, hv⟩ := dget_of_mem_keys (d := surf) (memOfGet ht)
           simp [pyGet, ht, hv])
  · have hxy := loop3_none hlen2 hm
    rcases loop3_cases (p := matchXXonly) hlen2 with hxx | ⟨i, s, hxx, hs⟩ <;>
    rcases loop3_cases (p := matchYY) hlen2 with hyy | ⟨j, t, hyy, ht⟩ <;>
      simp only [parseStrains, identifyChannels, hxx, hxy, hyy, pyGetOpt,
        ok_bind, error_bind, pure_eq_ok] <;>
      first
        | rfl
        | (obtain ⟨v, hv⟩ := dget_of_mem_keys (d := surf) (memOfGet hs)
           obtain ⟨w, hw⟩ := dget_of_mem_keys (d := surf) (memOfGet ht)
           simp [pyGet, hs, ht, hv, hw])
        | (obtain ⟨v, hv⟩ := dget_of_mem_keys (d := surf) (memOfGet hs)
           simp [pyGet, hs, hv])

/-- Witness for C5: three component names matching none of the strain
patterns make the parse fail with `TypeError`. -/
theorem c5_no_match_fails_witness :
    parseStrains [("a", (0 : Nat)), ("b", 1), ("c", 2)] = .error .typeError :=
  c5_no_match_fails [("a", 0), ("b", 1), ("c", 2)] (by decide)
    (Or.inl (by decide))

/-- C5 counterexample: on the component names
`["epsX_a", "epsX_bepsY", "epsXY"]` TWO names match the X-normal pattern
(and not the shear pattern), so the eps_xx channel is not uniquely
resolvable; yet identification silently picks the first and the parse
succeeds instead of failing. -/
theorem c5_counterexample :
    (["epsX_a", "epsX_bepsY", "epsXY"].filter (fun s => matchXXonly s)).length
      = 2 ∧
    parseStrains [("epsX_a", (10 : Nat)), ("epsX_bepsY", 20), ("epsXY", 30)] =
      .ok [("eps_xx", 10), ("eps_yy", 20), ("eps_xy", 30)] := by
  refine ⟨by rfl, by rfl⟩

/-- C8: on a triangle list whose triangles are nondegenerate (their edges
are genuine unordered pairs) and in which every edge belongs to at most
two triangles, the working set left by `mesh_boundaries` contains exactly
the edges appearing in exactly one triangle: an edge shared by two
triangles cancels, a once-occurring edge stays (parity of occurrence
counts). -/
theorem c8_boundary_parity (mesh : List (Nat × Nat × Nat))
    (hnd : ∀ t ∈ mesh, t.1 ≠ t.2.1 ∧ t.2.1 ≠ t.2.2 ∧ t.1 ≠ t.2.2)
    (h2 : ∀ t ∈ mesh, ∀ e ∈ triEdges t, triCount e mesh ≤ 2) :
    ∀ e : HalfEdge, (e ∈ mesh_boundaries mesh ↔ triCount e mesh = 1) := by
  intro e
  rw [mesh_boundaries_eq]
  have hspec :=
    (foldl_toggle_spec (mesh.flatMap triEdges) [] List.nodup_nil).2 e
  rw [hspec, count_flatMap_triEdges mesh hnd e]
  by_cases hmem : ∃ t ∈ mesh, e ∈ triEdges t
  · obtain ⟨t, ht, het⟩ := hmem
    have hb := h2 t ht e het
    unfold Xor'
    rw [Nat.odd_iff]
    simp only [List.not_mem_nil, false_and, not_false_eq_true, and_true,
      false_or]
    omega
  · have h0 : triCount e mesh = 0 := by
      unfold triCount
      rw [List.length_eq_zero, List.filter_eq_nil_iff]
      intro t ht
      simpa using fun hmt => hmem ⟨t, ht, hmt⟩
    rw [h0]
    unfold Xor'
    simp [Nat.odd_iff]

/-- Witness for C8: on two triangles sharing the edge `{1,2}`, the
boundary set holds the outer edge `{0,1}` exactly when it lies in exactly
one triangle. -/
theorem c8_boundary_parity_witness :
    (mkEdge 0 1 ∈ mesh_boundaries [(0, 1, 2), (1, 2, 3)] ↔
      triCount (mkEdge 0 1) [(0, 1, 2), (1, 2, 3)] = 1) :=
  c8_boundary_parity [(0, 1, 2), (1, 2, 3)] (by decide) (by decide) (mkEdge 0 1)

/-- C9 (amended): the element set computed by `_numpyfi`'s intersection
fold (convert_to.py 87-90) — the set whose enumeration is the ordered
list of retained vertex indices — contains exactly the indices valid in
every selected stage's coordinate stream, and its MEMBERSHIP is invariant
under permuting the order in which the stages are intersected.  Nothing
is asserted about the enumeration ORDER: it is CPython's hash-set order,
which is not the first stage's insertion order (see the counterexample)
and, under hash collisions, depends on the set's insertion history — so
on the order the stages were intersected in. -/
theorem c9_intersection_membership {α : Type}
    (coords_o : List (String × List (Nat × α))) (l1 l2 : List String)
    (s1 s2 : List Nat) (hp : l1.Perm l2)
    (h1 : elementMembers coords_o l1 = .ok s1)
    (h2 : elementMembers coords_o l2 = .ok s2) :
    (∀ x, x ∈ s1 ↔
      ∀ st ∈ l1, ∀ d, dget coords_o st = .ok d → x ∈ dkeys d) ∧
    (∀ x, x ∈ s1 ↔ x ∈ s2) := by
  have m1 := elementMembers_spec coords_o l1 s1 h1
  have m2 := elementMembers_spec coords_o l2 s2 h2
  refine ⟨m1, fun x => ?_⟩
  rw [m1 x, m2 x]
  constructor
  · intro hall st hst
    exact hall st (hp.mem_iff.mpr hst)
  · intro hall st hst
    exact hall st (hp.mem_iff.mp hst)

/-- Witness for C9: on the two-stage document the element set is the
intersection for both stage orders, with the same members either way. -/
theorem c9_intersection_membership_witness :
    (∀ x, x ∈ [7, 8] ↔
      ∀ st ∈ ["a", "b"], ∀ d, dget c9coords st = .ok d → x ∈ dkeys d) ∧
    (∀ x, x ∈ ([7, 8] : List Nat) ↔ x ∈ [7, 8]) :=
  c9_intersection_membership c9coords ["a", "b"] ["b", "a"] [7, 8] [7, 8]
    (by decide) (by rfl) (by rfl)

/-- C4 (amended): whenever the combined lower bound exceeds the combined
upper bound AND the combined upper bound is nonnegative — so that the
stage slice really is empty — loading fails: `_numpyfi` raises at
`list_stage[0]` on the empty stage selection (the code's realization of
the spec's EmptyWindowError).  With a negative combined upper bound,
Python's negative-index slicing can retain stages instead (see the
counterexample). -/
theorem c4_empty_window_fails {α β : Type} (args : WinArgs)
    (coords_o : List (String × List (Nat × α)))
    (strains_o : List (String × List (String × List (Nat × β))))
    (force_o time_o : List (String × ℚ)) (mesh_o : List (Nat × Nat × Nat))
    (f l : Int)
    (hw : windowCalc args (force_o.map Prod.snd) (time_o.map Prod.snd)
      (dkeys coords_o).length = .ok (f, l))
    (hfl : l < f) (hl : 0 ≤ l) (hstep : args.thinning ≠ some 0) :
    load_from args coords_o strains_o force_o time_o mesh_o =
      .error .indexError := by
  unfold load_from
  simp only [hw, ok_bind]
  unfold numpyfi
  rw [pySlice_empty (dkeys time_o) args.thinning hl (le_of_lt hfl) hstep]
  simp [elementMembers]

/-- Witness for C4: explicit first stage 3 and last stage 1 on the
four-stage document leave an empty window, and loading fails. -/
theorem c4_empty_window_fails_witness :
    load_from c4argsSwap c4coords c4strains c4force c4time c4mesh =
      .error .indexError :=
  c4_empty_window_fails c4argsSwap c4coords c4strains c4force c4time c4mesh
    3 1 (by rfl) (by decide) (by decide) (by decide)

/-- C10: the claim says the public translate operation leaves the whole
state unchanged.  `DIC_Result.translate` evaluates `self.coords + vector`
and discards the result without assigning any attribute, so the object is
exactly the one it started from. -/
theorem c10_translate_noop : ∀ (r : DICResult) (v : Vec3), translate r v = r :=
  fun _ _ => rfl

end DICX
